import Mathlib

/-!
Shallow embedding of `Calibration.py` from the IntensityCreditModels repository.

The module under verification is the calibration engine: the class `Calibration`
(objective function, optimizer orchestration, RMSE and reporting) and its subclass
`InhomogenousCalibration`.  Python floats are embedded as rationals (`ℚ`); the only
place a real number appears is `sqrt` in the RMSE computations, which lands in `ℝ`.
Python exceptions are embedded as `Except PyError`; printing side effects are
embedded as the values that would be printed (rows of the tabular report).

The collaborators that live in other files of the repository
(`MarketData.py`, `CDS.py`, `DiscountCurve.py`) and the scipy optimizer are not
under `src/`; they enter the embedding as abstract data (`MarketData`,
`CDSContract`, `CDSClass`, `IHPClass`, `DiscountCurveT`, `Optimiser`) whose
interfaces follow the spec, and every definition that fills in behaviour of the
missing code is marked `Modelled from the spec:` in its doc string.
-/

namespace ICM

/-- A parameter vector (Python: a list/ndarray of floats, here rationals). -/
abbrev ParamVec := List ℚ

/-- Modelled from the spec: `DiscountCurve.py` is not under `src/`.  Per §6 a
discount curve maps a time to a discount factor; the calibration engine only
passes it through to the pricing models, so it is embedded as a bare function. -/
abbrev DiscountCurveT := ℚ → ℚ

/-- Modelled from the spec: `MarketData.py` is not under `src/`.  Per §3/§6 a
MarketDataSet holds an ordered collection of (tenor, market_spread) observations
for one valuation date. -/
structure MarketData where
  data : List (ℚ × ℚ)
  date : String

/-- Modelled from the spec: accessor `Data()` returning the (tenor, spread) pairs. -/
def MarketData.Data (md : MarketData) : List (ℚ × ℚ) := md.data

/-- Modelled from the spec: accessor `Tenors()` returning the tenor values of the
observations. -/
def MarketData.Tenors (md : MarketData) : List ℚ := md.data.map Prod.fst

/-- Modelled from the spec: accessor `Date()` returning the valuation date label. -/
def MarketData.Date (md : MarketData) : String := md.date

/-- Modelled from the spec: `CDS.py` is not under `src/`.  Per §6 a constructed
pricing model exposes `ParSpread(parameters)` and
`SurvivalProbability(parameters, tenor)`. -/
structure CDSContract where
  ParSpread : ParamVec → ℚ
  SurvivalProbability : ParamVec → ℚ → ℚ

/-- Modelled from the spec: a homogeneous pricing-model class, constructed from a
discount curve and a maturity (`self.CDS(DiscountCurve = ..., maturity = t)`). -/
abbrev CDSClass := DiscountCurveT → ℚ → CDSContract

/-- Modelled from the spec: the inhomogeneous pricing-model class
`IHPCreditDefaultSwap`, additionally constructed with the full tenor grid
(`IHPCreditDefaultSwap(tenors = ..., DiscountCurve = ..., maturity = t)`). -/
abbrev IHPClass := List ℚ → DiscountCurveT → ℚ → CDSContract

/-- The Python runtime errors (and the spec's state error, §7) that the embedded
methods can raise. -/
inductive PyError where
  | attributeError (name : String)
  | typeError (msg : String)
  | stateError
  | zeroDivisionError
  | indexError (msg : String)
  deriving DecidableEq

/-- Python's `sorted` on rationals: stable sort ascending. -/
def sortQ (l : List ℚ) : List ℚ := l.mergeSort (fun a b => decide (a ≤ b))

/-- Lexicographic order on (tenor, spread) pairs, as Python compares tuples in
`sorted(self.MarketData.Data())`. -/
def pairLE (p q : ℚ × ℚ) : Bool :=
  decide (p.1 < q.1) || (decide (p.1 = q.1) && decide (p.2 ≤ q.2))

/-- Python's `sorted` on the (tenor, spread) pairs of the market data. -/
def sortData (l : List (ℚ × ℚ)) : List (ℚ × ℚ) := l.mergeSort pairLE

/-- Sequencing of a fallible per-element computation over a list, mirroring a
Python `for` loop that may raise: the first error aborts the whole loop. -/
def exceptMap {α β : Type} (f : α → Except PyError β) : List α → Except PyError (List β)
  | [] => .ok []
  | x :: xs => do
    let y ← f x
    let ys ← exceptMap f xs
    pure (y :: ys)

/-- Python's `list.index`: index of the first occurrence (source line 149,
`sorted(self.MarketData.Tenors()).index(t)`). -/
def listIndex (a : ℚ) : List ℚ → ℕ
  | [] => 0
  | b :: bs => if b = a then 0 else listIndex a bs + 1

/-- The state of a `Calibration` object (source lines 18-30).  Fields mirror the
attributes set in `__init__`: `N` is only set when `MarketData` is not `None`,
and `calibrated_gamma` starts as `None`. -/
structure Calibration where
  DiscountCurve : DiscountCurveT
  MarketData : Option ICM.MarketData
  CDS : CDSClass
  Process : String
  Guess : Option ParamVec
  N : Option Nat
  calibrated_gamma : Option ParamVec

/-- `Calibration.__init__` (source lines 18-30). -/
def Calibration.init (dc : DiscountCurveT) (md : Option ICM.MarketData)
    (cds : CDSClass) (proc : String) (guess : Option ParamVec) : Calibration :=
  { DiscountCurve := dc, MarketData := md, CDS := cds, Process := proc,
    Guess := guess,
    N := md.map (fun m => m.Tenors.length),
    calibrated_gamma := none }

/-- The accumulation loop shared by both objective functions (source lines 35-41
and 127-134): fold the squared spread errors over the market data, starting
from `sum = 0`.  `mk t` is the pricing model instantiated at maturity `t`. -/
def objSum (mk : ℚ → CDSContract) (data : List (ℚ × ℚ)) (gamma : ParamVec) : ℚ :=
  data.foldl (fun s p => s + ((mk p.1).ParSpread gamma - p.2) ^ 2) 0

/-- Modelled from the spec: `CDS.py` is not under `src/`, so the behaviour of
`ParSpread(None)` - reached when an objective function is evaluated at the
`None` stored in `calibrated_gamma` before any `Calibrate()` call - is not in
the source.  Per §7 of the spec such an evaluation fails with the state error.
When the data is empty the Python loop never runs and `0` is returned. -/
def absentGammaResult (data : List (ℚ × ℚ)) : Except PyError ℚ :=
  if data.isEmpty then .ok 0 else .error PyError.stateError

/-- `Calibration.ObjectiveFunction` (source lines 32-41).  The argument is an
`Option` because `RMSE` passes `self.calibrated_gamma`, which may be `None`.
Iterating `self.MarketData.Data()` with `MarketData = None` raises
`AttributeError` on the `Data` attribute. -/
def Calibration.ObjectiveFunction (c : Calibration) (gamma : Option ParamVec) :
    Except PyError ℚ :=
  match c.MarketData with
  | none => .error (PyError.attributeError ("Data"))
  | some md =>
    match gamma with
    | some g => .ok (objSum (c.CDS c.DiscountCurve) md.Data g)
    | none => absentGammaResult md.Data

/-- Modelled from the spec: the scipy `fmin` optimizer (§6).  It minimizes the
objective from the initial guess and internally knows whether it converged;
the pair is (best-effort parameter vector, converged flag).  The source calls
it with `disp=0` and without `full_output`, so only the vector reaches the
caller (see `Calibration.Calibrate`). -/
abbrev Optimiser := (ParamVec → ℚ) → ParamVec → ParamVec × Bool

/-- `Calibration.Calibrate` (source lines 43-50): invoke the optimizer on the
objective function and the guess, store the resulting vector in
`calibrated_gamma` and return it.  The convergence flag of the optimizer is
discarded and `disp=0` suppresses its warning output, so only `.1` is used. -/
def Calibration.Calibrate (opt : Optimiser) (c : Calibration) :
    Except PyError (Calibration × ParamVec) :=
  match c.Guess, c.MarketData with
  | none, _ => .error (PyError.typeError ("Guess is None"))
  | some _, none => .error (PyError.attributeError ("Data"))
  | some guess, some md =>
    let output := (opt (fun g => objSum (c.CDS c.DiscountCurve) md.Data g) guess).1
    .ok ({ c with calibrated_gamma := some output }, output)

/-- `Calibration.RMSE` (source lines 52-54):
`sqrt(self.ObjectiveFunction(self.calibrated_gamma) / self.N)`.  Python
evaluates the objective first; reading the never-assigned `self.N` raises
`AttributeError` on the `N` attribute. -/
noncomputable def Calibration.RMSE (c : Calibration) : Except PyError ℝ := do
  let s ← c.ObjectiveFunction c.calibrated_gamma
  match c.N with
  | none => .error (PyError.attributeError ("N"))
  | some n => pure (Real.sqrt ((s : ℝ) / (n : ℝ)))

/-- One printed row of the tabular report of `Calibration.CalibrationResults`
(source lines 87-88): tenor, market spread, model spread, and survival
probability scaled by 100. -/
structure ReportRow where
  tenor : ℚ
  market_spread : ℚ
  model_spread : ℚ
  survival_probability : ℚ

/-- `Calibration.CalibrationResults` (source lines 68-96), with printing embedded
as returned values: the rows printed in the loop, the printed
`RMSE = sqrt(sum/N)` recomputed over the sorted data, and the Python return
value, which is always `None`.  The header reads `self.MarketData.Date()`, so a
`None` market data raises `AttributeError` on `Date`; an empty data set makes
`sum/N` a zero division; a `None` `calibrated_gamma` fails inside `ParSpread`
(spec §7: state error, see `absentGammaResult`). -/
noncomputable def Calibration.CalibrationResults (c : Calibration) :
    Except PyError (List ReportRow × ℝ × Option ℝ) :=
  match c.MarketData with
  | none => .error (PyError.attributeError ("Date"))
  | some md =>
    if md.Data.isEmpty then .error PyError.zeroDivisionError
    else
      match c.calibrated_gamma with
      | none => .error PyError.stateError
      | some g =>
        let rows := (sortData md.Data).map (fun p =>
          { tenor := p.1, market_spread := p.2,
            model_spread := (c.CDS c.DiscountCurve p.1).ParSpread g,
            survival_probability :=
              (c.CDS c.DiscountCurve p.1).SurvivalProbability g p.1 * 100 })
        let s := objSum (c.CDS c.DiscountCurve) (sortData md.Data) g
        .ok (rows, Real.sqrt ((s : ℝ) / (md.Tenors.length : ℝ)), none)

/-- `Calibration.PrintParameters` (source lines 98-104), with the `%.4f` float
formatting abstracted to `toString`: builds the LaTeX parameter string from
`enumerate(self.calibrated_gamma)`.  Iterating the `None` stored before any
`Calibrate()` call raises `TypeError` in Python. -/
def Calibration.PrintParameters (c : Calibration) : Except PyError String :=
  match c.calibrated_gamma with
  | none => .error (PyError.typeError ("NoneType object is not iterable"))
  | some g =>
    .ok ((g.enum.foldl
      (fun str ip =>
        str ++ "\t&\t$\\lambda_" ++ toString ip.1 ++ " = " ++ toString ip.2 ++ "$\t")
      ("")) ++ "\t\\\\")

/-- The state of an `InhomogenousCalibration` object (source lines 108-122).
`self.CDS` is bound to the external `IHPCreditDefaultSwap` class, so the field
holds an `IHPClass`; `tenors`, `N` and `Guess` are only set when `MarketData`
is not `None`. -/
structure InhomogenousCalibration where
  DiscountCurve : DiscountCurveT
  MarketData : Option ICM.MarketData
  IHPCDS : IHPClass
  Process : String
  Guess : Option ParamVec
  N : Option Nat
  tenors : Option (List ℚ)
  calibrated_gamma : Option ParamVec

/-- `InhomogenousCalibration.__init__` (source lines 113-122): the guess defaults
to `[0.01] * N`, one small positive intensity per tenor bucket. -/
def InhomogenousCalibration.init (dc : DiscountCurveT) (md : Option ICM.MarketData)
    (ihp : IHPClass) : InhomogenousCalibration :=
  { DiscountCurve := dc, MarketData := md, IHPCDS := ihp, Process := ("IHP"),
    Guess := md.map (fun m => List.replicate m.Tenors.length (1 / 100 : ℚ)),
    N := md.map (fun m => m.Tenors.length),
    tenors := md.map (fun m => m.Tenors),
    calibrated_gamma := none }

/-- `InhomogenousCalibration.ObjectiveFunction` (source lines 124-134): same
accumulation as the base class, but each pricing model is instantiated with
`tenors = sorted(self.MarketData.Tenors())` alongside the maturity. -/
def InhomogenousCalibration.ObjectiveFunction (c : InhomogenousCalibration)
    (gamma : Option ParamVec) : Except PyError ℚ :=
  match c.MarketData with
  | none => .error (PyError.attributeError ("Data"))
  | some md =>
    match gamma with
    | some g =>
      .ok (objSum (fun t => c.IHPCDS (sortQ md.Tenors) c.DiscountCurve t) md.Data g)
    | none => absentGammaResult md.Data

/-- `Calibrate` as inherited by `InhomogenousCalibration` (source lines 43-50):
the body is the base-class one, but `self.ObjectiveFunction` dispatches to the
override of lines 124-134. -/
def InhomogenousCalibration.Calibrate (opt : Optimiser)
    (c : InhomogenousCalibration) :
    Except PyError (InhomogenousCalibration × ParamVec) :=
  match c.Guess, c.MarketData with
  | none, _ => .error (PyError.typeError ("Guess is None"))
  | some _, none => .error (PyError.attributeError ("Data"))
  | some guess, some md =>
    let output := (opt
      (fun g => objSum (fun t => c.IHPCDS (sortQ md.Tenors) c.DiscountCurve t) md.Data g)
      guess).1
    .ok ({ c with calibrated_gamma := some output }, output)

/-- `RMSE` as inherited by `InhomogenousCalibration` (source lines 52-54): the
base-class body with `self.ObjectiveFunction` dispatching to the override. -/
noncomputable def InhomogenousCalibration.RMSE (c : InhomogenousCalibration) :
    Except PyError ℝ := do
  let s ← c.ObjectiveFunction c.calibrated_gamma
  match c.N with
  | none => .error (PyError.attributeError ("N"))
  | some n => pure (Real.sqrt ((s : ℝ) / (n : ℝ)))

/-- One printed row of `InhomogenousCalibration.CalibrationResults` (source line
152): tenor, market spread, model spread, the calibrated intensity for this
tenor's bucket, and survival probability scaled by 100. -/
structure IHPReportRow where
  tenor : ℚ
  market_spread : ℚ
  model_spread : ℚ
  gamma : ℚ
  survival_probability : ℚ

/-- One loop iteration of `InhomogenousCalibration.CalibrationResults` (source
lines 143-155): the model is rebuilt on the sorted tenor grid, and the
intensity shown is `self.calibrated_gamma[index]` with
`index = sorted(self.MarketData.Tenors()).index(t)`; an out-of-range index
raises `IndexError`. -/
def ihpRow (ihp : IHPClass) (dc : DiscountCurveT) (md : ICM.MarketData)
    (g : ParamVec) (p : ℚ × ℚ) : Except PyError IHPReportRow :=
  match g[listIndex p.1 (sortQ md.Tenors)]? with
  | none => .error (PyError.indexError ("calibrated_gamma"))
  | some gi =>
    .ok { tenor := p.1, market_spread := p.2,
          model_spread := (ihp (sortQ md.Tenors) dc p.1).ParSpread g,
          gamma := gi,
          survival_probability :=
            (ihp (sortQ md.Tenors) dc p.1).SurvivalProbability g p.1 * 100 }

/-- `InhomogenousCalibration.CalibrationResults` (source lines 136-159), printing
embedded as returned values: the printed rows, the printed `RMSE`, and the
Python return value, which (unlike the base class) is the `RMSE` itself. -/
noncomputable def InhomogenousCalibration.CalibrationResults
    (c : InhomogenousCalibration) :
    Except PyError (List IHPReportRow × ℝ × Option ℝ) :=
  match c.MarketData with
  | none => .error (PyError.attributeError ("Date"))
  | some md =>
    if md.Data.isEmpty then .error PyError.zeroDivisionError
    else
      match c.calibrated_gamma with
      | none => .error PyError.stateError
      | some g =>
        match exceptMap (ihpRow c.IHPCDS c.DiscountCurve md g) (sortData md.Data) with
        | .error e => .error e
        | .ok rows =>
          let s := objSum (fun t => c.IHPCDS (sortQ md.Tenors) c.DiscountCurve t)
            (sortData md.Data) g
          let r := Real.sqrt ((s : ℝ) / (md.Tenors.length : ℝ))
          .ok (rows, r, some r)

/-- The per-tenor row the inhomogeneous report produces when the index is in
range: the same fields as `ihpRow`, with the intensity read by `getD`. -/
def ihpRowPure (ihp : IHPClass) (dc : DiscountCurveT) (md : ICM.MarketData)
    (g : ParamVec) (p : ℚ × ℚ) : IHPReportRow :=
  { tenor := p.1, market_spread := p.2,
    model_spread := (ihp (sortQ md.Tenors) dc p.1).ParSpread g,
    gamma := g.getD (listIndex p.1 (sortQ md.Tenors)) 0,
    survival_probability :=
      (ihp (sortQ md.Tenors) dc p.1).SurvivalProbability g p.1 * 100 }

/-! Concrete instances, mirroring the driver at the bottom of the source file
(a flat discount curve with rate zero and the three-tenor data set the spec uses
in its concrete scenario).  They are used by the witness theorems. -/

/-- A flat discount curve (the source driver's `FlatDiscountCurve(r = 0.00)`). -/
def dcEx : DiscountCurveT := fun _ => 1

/-- The spec §8 concrete scenario data set: tenors 1, 3, 5 with spreads
100, 120, 140. -/
def mdEx : ICM.MarketData := { data := [(1, 100), (3, 120), (5, 140)], date := ("CDX") }

/-- A simple homogeneous pricing model: par spread is intensity times maturity. -/
def cdsEx : CDSClass := fun _dc t =>
  { ParSpread := fun g => g.headD 0 * t, SurvivalProbability := fun g u => 1 - g.headD 0 * u }

/-- A pricing model that reproduces `mdEx` exactly (par spread `90 + 10 t`). -/
def cdsFit : CDSClass := fun _dc t =>
  { ParSpread := fun _g => 90 + 10 * t, SurvivalProbability := fun _g _u => 1 }

/-- A simple inhomogeneous pricing model: par spread is the first intensity. -/
def ihpEx : IHPClass := fun _tenors _dc _t =>
  { ParSpread := fun g => g.headD 0, SurvivalProbability := fun _g _u => 1 }

/-- A freshly constructed (uncalibrated) homogeneous calibration. -/
def cEx : Calibration := Calibration.init dcEx (some mdEx) cdsEx ("HP") (some [1 / 100])

/-- A homogeneous calibration in calibrated state, over the perfect-fit model. -/
def cCal : Calibration :=
  { DiscountCurve := dcEx, MarketData := some mdEx, CDS := cdsFit, Process := ("HP"),
    Guess := some [1 / 100], N := some 3, calibrated_gamma := some [1 / 50] }

/-- An inhomogeneous calibration in calibrated state, with one intensity per
tenor. -/
def ciCal : InhomogenousCalibration :=
  { DiscountCurve := dcEx, MarketData := some mdEx, IHPCDS := ihpEx, Process := ("IHP"),
    Guess := some [1 / 100, 1 / 100, 1 / 100], N := some 3, tenors := some [1, 3, 5],
    calibrated_gamma := some [2, 3, 4] }

/-- A freshly constructed inhomogeneous calibration. -/
def ciEx : InhomogenousCalibration := InhomogenousCalibration.init dcEx (some mdEx) ihpEx

/-- A homogeneous calibration constructed with `MarketData = None`, with a
parameter vector present, to probe the failure mode of `RMSE`. -/
def cNoMD : Calibration :=
  { DiscountCurve := dcEx, MarketData := none, CDS := cdsEx, Process := ("HP"),
    Guess := some [1 / 100], N := none, calibrated_gamma := some [1] }

/-- An inhomogeneous calibration constructed with `MarketData = None`. -/
def ciNoMD : InhomogenousCalibration :=
  { DiscountCurve := dcEx, MarketData := none, IHPCDS := ihpEx, Process := ("IHP"),
    Guess := none, N := none, tenors := none, calibrated_gamma := some [1] }

/-- An optimizer that returns the guess and reports convergence. -/
def optTrue : Optimiser := fun _f g => (g, true)

/-- An optimizer that returns the guess and reports non-convergence (iteration
budget exhausted). -/
def optFalse : Optimiser := fun _f g => (g, false)

/-! Helper lemmas about the embedded operations. -/

theorem foldl_add_map (f : (ℚ × ℚ) → ℚ) (data : List (ℚ × ℚ)) (a : ℚ) :
    data.foldl (fun s p => s + f p) a = a + (data.map f).sum := by
  induction data generalizing a with
  | nil => simp
  | cons p ps ih => simp [ih, add_assoc]

theorem objSum_eq_sum (mk : ℚ → CDSContract) (data : List (ℚ × ℚ)) (gamma : ParamVec) :
    objSum mk data gamma
      = (data.map (fun p => ((mk p.1).ParSpread gamma - p.2) ^ 2)).sum := by
  simpa [objSum] using
    foldl_add_map (fun p => ((mk p.1).ParSpread gamma - p.2) ^ 2) data 0

theorem sum_nonneg_eq_zero_iff (l : List ℚ) (h : ∀ x ∈ l, 0 ≤ x) :
    l.sum = 0 ↔ ∀ x ∈ l, x = 0 := by
  induction l with
  | nil => simp
  | cons x xs ih =>
    have hx : 0 ≤ x := h x (by simp)
    have hxs : ∀ y ∈ xs, 0 ≤ y := fun y hy => h y (by simp [hy])
    have hs : 0 ≤ xs.sum := List.sum_nonneg hxs
    simp only [List.sum_cons, List.mem_cons]
    constructor
    · intro h0
      have hx0 : x = 0 := by linarith [(ih hxs).mpr, hs]
      have hs0 : xs.sum = 0 := by linarith
      intro y hy
      rcases hy with rfl | hy
      · exact hx0
      · exact (ih hxs).mp hs0 y hy
    · intro hall
      have hx0 : x = 0 := hall x (Or.inl rfl)
      have hs0 : xs.sum = 0 := (ih hxs).mpr (fun y hy => hall y (Or.inr hy))
      rw [hx0, hs0, add_zero]

theorem isEmpty_false_of_ne {α : Type} {l : List α} (h : l ≠ []) :
    l.isEmpty = false := List.isEmpty_eq_false.mpr h

theorem pairLE_trans (a b c : ℚ × ℚ) (h1 : pairLE a b = true) (h2 : pairLE b c = true) :
    pairLE a c = true := by
  simp only [pairLE, Bool.or_eq_true, Bool.and_eq_true, decide_eq_true_eq] at *
  rcases h1 with h1 | ⟨h1e, h1s⟩ <;> rcases h2 with h2 | ⟨h2e, h2s⟩
  · exact Or.inl (h1.trans h2)
  · exact Or.inl (h2e ▸ h1)
  · exact Or.inl (h1e ▸ h2)
  · exact Or.inr ⟨h1e.trans h2e, h1s.trans h2s⟩

theorem pairLE_total (a b : ℚ × ℚ) : (pairLE a b || pairLE b a) = true := by
  simp only [pairLE, Bool.or_eq_true, Bool.and_eq_true, decide_eq_true_eq]
  rcases lt_trichotomy a.1 b.1 with h | h | h
  · exact Or.inl (Or.inl h)
  · rcases le_total a.2 b.2 with hs | hs
    · exact Or.inl (Or.inr ⟨h, hs⟩)
    · exact Or.inr (Or.inr ⟨h.symm, hs⟩)
  · exact Or.inr (Or.inl h)

theorem pairLE_fst_le (a b : ℚ × ℚ) (h : pairLE a b = true) : a.1 ≤ b.1 := by
  simp only [pairLE, Bool.or_eq_true, Bool.and_eq_true, decide_eq_true_eq] at h
  rcases h with h | ⟨he, _⟩
  · exact le_of_lt h
  · exact le_of_eq he

theorem sortData_perm (l : List (ℚ × ℚ)) : (sortData l).Perm l :=
  List.mergeSort_perm l pairLE

theorem sortData_sorted_fst (l : List (ℚ × ℚ)) :
    ((sortData l).map Prod.fst).Sorted (· ≤ ·) := by
  have h := List.sorted_mergeSort pairLE_trans pairLE_total l
  exact List.Pairwise.map Prod.fst (fun a b hab => pairLE_fst_le a b hab) h

theorem sortQ_perm (l : List ℚ) : (sortQ l).Perm l :=
  List.mergeSort_perm l (fun a b => decide (a ≤ b))

theorem sortQ_sorted (l : List ℚ) : (sortQ l).Sorted (· ≤ ·) := by
  have h : (l.mergeSort (fun a b : ℚ => decide (a ≤ b))).Pairwise
      (fun a b : ℚ => decide (a ≤ b) = true) :=
    List.sorted_mergeSort
      (fun a b c hab hbc => by
        simp only [decide_eq_true_eq] at *
        exact le_trans hab hbc)
      (fun a b => by simpa using le_total a b) l
  exact h.imp (fun hab => by simpa using hab)

theorem listIndex_lt_length {a : ℚ} {l : List ℚ} (h : a ∈ l) :
    listIndex a l < l.length := by
  induction l with
  | nil => simp at h
  | cons b bs ih =>
    by_cases hb : b = a
    · simp [listIndex, hb]
    · have hm : a ∈ bs := by
        rcases List.mem_cons.mp h with h1 | h1
        · exact absurd h1.symm hb
        · exact h1
      simpa [listIndex, hb] using ih hm

theorem getElem?_eq_some_getD (l : List ℚ) (i : ℕ) (h : i < l.length) :
    l[i]? = some (l.getD i 0) := by
  rw [List.getD_eq_getElem?_getD, List.getElem?_eq_getElem h]
  rfl

theorem exceptMap_ok {α β : Type} (f : α → Except PyError β) (g : α → β) :
    ∀ l : List α, (∀ a ∈ l, f a = .ok (g a)) → exceptMap f l = .ok (l.map g) := by
  intro l
  induction l with
  | nil => intro _; rfl
  | cons x xs ih =>
    intro h
    rw [exceptMap, h x (by simp), ih (fun a ha => h a (by simp [ha]))]
    rfl

theorem base_results_eq (c : Calibration) (md : ICM.MarketData) (g : ParamVec)
    (hmd : c.MarketData = some md) (hg : c.calibrated_gamma = some g)
    (hne : md.Data ≠ []) :
    c.CalibrationResults = .ok ((sortData md.Data).map (fun p =>
        { tenor := p.1, market_spread := p.2,
          model_spread := (c.CDS c.DiscountCurve p.1).ParSpread g,
          survival_probability :=
            (c.CDS c.DiscountCurve p.1).SurvivalProbability g p.1 * 100 }),
      Real.sqrt ((objSum (c.CDS c.DiscountCurve) (sortData md.Data) g : ℝ)
        / (md.Tenors.length : ℝ)),
      none) := by
  simp [Calibration.CalibrationResults, hmd, hg, isEmpty_false_of_ne hne]

theorem ihp_mapM_eq (ci : InhomogenousCalibration) (mdi : ICM.MarketData)
    (gi : ParamVec) (hlen : gi.length = mdi.Tenors.length) :
    exceptMap (ihpRow ci.IHPCDS ci.DiscountCurve mdi gi) (sortData mdi.Data)
      = .ok ((sortData mdi.Data).map (ihpRowPure ci.IHPCDS ci.DiscountCurve mdi gi)) := by
  apply exceptMap_ok
  intro p hp
  have hpd : p ∈ mdi.Data := (sortData_perm mdi.Data).mem_iff.mp hp
  have ht : p.1 ∈ sortQ mdi.Tenors :=
    (sortQ_perm mdi.Tenors).mem_iff.mpr (List.mem_map_of_mem Prod.fst hpd)
  have hidx : listIndex p.1 (sortQ mdi.Tenors) < gi.length := by
    have h1 := listIndex_lt_length ht
    rwa [(sortQ_perm mdi.Tenors).length_eq, ← hlen] at h1
  rw [ihpRow, getElem?_eq_some_getD _ _ hidx]
  rfl

theorem ihp_results_eq (ci : InhomogenousCalibration) (mdi : ICM.MarketData)
    (gi : ParamVec) (hmdi : ci.MarketData = some mdi)
    (hgi : ci.calibrated_gamma = some gi) (hnei : mdi.Data ≠ [])
    (hlen : gi.length = mdi.Tenors.length) :
    ci.CalibrationResults = .ok
      ((sortData mdi.Data).map (ihpRowPure ci.IHPCDS ci.DiscountCurve mdi gi),
      Real.sqrt ((objSum (fun t => ci.IHPCDS (sortQ mdi.Tenors) ci.DiscountCurve t)
        (sortData mdi.Data) gi : ℝ) / (mdi.Tenors.length : ℝ)),
      some (Real.sqrt ((objSum (fun t => ci.IHPCDS (sortQ mdi.Tenors) ci.DiscountCurve t)
        (sortData mdi.Data) gi : ℝ) / (mdi.Tenors.length : ℝ)))) := by
  simp [InhomogenousCalibration.CalibrationResults, hmdi, hgi,
    isEmpty_false_of_ne hnei, ihp_mapM_eq ci mdi gi hlen]

theorem except_error_bind {α β : Type} (e : PyError) (f : α → Except PyError β) :
    (Except.error e >>= f : Except PyError β) = Except.error e := rfl

/-! The claims. -/

/-- C1: for every candidate parameter vector `gamma`,
`Calibration.ObjectiveFunction(gamma)` is the plain sum, over the (tenor,
market_spread) pairs of the bound market data, of
`(model_spread - market_spread)^2`, with the model spread computed by the bound
pricing model at that maturity under `gamma` with the shared discount curve;
no division by the tenor count takes place. -/
theorem C1_objective_is_plain_sum (c : Calibration) (md : ICM.MarketData)
    (hmd : c.MarketData = some md) (gamma : ParamVec) :
    c.ObjectiveFunction (some gamma) =
      .ok ((md.Data.map
        (fun p => ((c.CDS c.DiscountCurve p.1).ParSpread gamma - p.2) ^ 2)).sum) := by
  simp [Calibration.ObjectiveFunction, hmd, objSum_eq_sum]

/-- Witness for C1: the plain-sum identity evaluated on the concrete three-tenor
instance. -/
theorem C1_objective_is_plain_sum_witness :
    cEx.ObjectiveFunction (some [1]) =
      .ok ((mdEx.Data.map
        (fun p => ((cEx.CDS cEx.DiscountCurve p.1).ParSpread [1] - p.2) ^ 2)).sum) :=
  C1_objective_is_plain_sum cEx mdEx rfl [1]

/-- C3: in the inhomogeneous objective function, the pricing model for every
tenor of the market data is instantiated with the entire sorted tenor grid of
the market data alongside that tenor's maturity: the grid passed is sorted and
is a permutation of all the tenors. -/
theorem C3_ihp_objective_sorted_grid (ci : InhomogenousCalibration)
    (md : ICM.MarketData) (hmd : ci.MarketData = some md) (gamma : ParamVec) :
    ci.ObjectiveFunction (some gamma) =
      .ok ((md.Data.map (fun p =>
        ((ci.IHPCDS (sortQ md.Tenors) ci.DiscountCurve p.1).ParSpread gamma
          - p.2) ^ 2)).sum) ∧
    (sortQ md.Tenors).Sorted (· ≤ ·) ∧ (sortQ md.Tenors).Perm md.Tenors := by
  refine ⟨?_, sortQ_sorted _, sortQ_perm _⟩
  simp [InhomogenousCalibration.ObjectiveFunction, hmd, objSum_eq_sum]

/-- Witness for C3 on the concrete calibrated inhomogeneous instance. -/
theorem C3_ihp_objective_sorted_grid_witness :
    ciCal.ObjectiveFunction (some [1, 1, 1]) =
      .ok ((mdEx.Data.map (fun p =>
        ((ciCal.IHPCDS (sortQ mdEx.Tenors) ciCal.DiscountCurve p.1).ParSpread [1, 1, 1]
          - p.2) ^ 2)).sum) ∧
    (sortQ mdEx.Tenors).Sorted (· ≤ ·) ∧ (sortQ mdEx.Tenors).Perm mdEx.Tenors :=
  C3_ihp_objective_sorted_grid ciCal mdEx rfl [1, 1, 1]

/-- C5: the objective function's value is non-negative for every candidate
vector, and is zero exactly when the model spread matches the market spread at
every tenor of the bound market data. -/
theorem C5_objective_nonneg_zero_iff (c : Calibration) (md : ICM.MarketData)
    (hmd : c.MarketData = some md) (gamma : ParamVec) :
    ∃ v : ℚ, c.ObjectiveFunction (some gamma) = .ok v ∧ 0 ≤ v ∧
      (v = 0 ↔ ∀ p ∈ md.Data,
        (c.CDS c.DiscountCurve p.1).ParSpread gamma = p.2) := by
  refine ⟨objSum (c.CDS c.DiscountCurve) md.Data gamma,
    by simp [Calibration.ObjectiveFunction, hmd], ?_, ?_⟩
  · rw [objSum_eq_sum]
    refine List.sum_nonneg ?_
    intro x hx
    rcases List.mem_map.mp hx with ⟨p, _, rfl⟩
    positivity
  · rw [objSum_eq_sum,
      sum_nonneg_eq_zero_iff _ (fun x hx => by
        rcases List.mem_map.mp hx with ⟨p, _, rfl⟩
        positivity)]
    constructor
    · intro h p hp
      have h2 := h _ (List.mem_map_of_mem _ hp)
      have h3 := (pow_eq_zero_iff (by norm_num : (2 : ℕ) ≠ 0)).mp h2
      exact sub_eq_zero.mp h3
    · intro h x hx
      rcases List.mem_map.mp hx with ⟨p, hp, rfl⟩
      rw [h p hp, sub_self]
      ring

/-- Witness for C5 on the concrete three-tenor instance. -/
theorem C5_objective_nonneg_zero_iff_witness :
    ∃ v : ℚ, cEx.ObjectiveFunction (some [1]) = .ok v ∧ 0 ≤ v ∧
      (v = 0 ↔ ∀ p ∈ mdEx.Data,
        (cEx.CDS cEx.DiscountCurve p.1).ParSpread [1] = p.2) :=
  C5_objective_nonneg_zero_iff cEx mdEx rfl [1]

/-- C2: on a calibrated instance, `RMSE()` is exactly
`sqrt(ObjectiveFunction(calibrated_gamma) / N)`, for the base class and - with
the overridden objective function - for the inhomogeneous variant: the
round-trip through the instance's own objective function reproduces the
reported RMSE exactly. -/
theorem C2_rmse_roundtrip (c : Calibration) (ci : InhomogenousCalibration)
    (s t : ℚ) (n m : ℕ)
    (hs : c.ObjectiveFunction c.calibrated_gamma = .ok s) (hn : c.N = some n)
    (ht : ci.ObjectiveFunction ci.calibrated_gamma = .ok t) (hm : ci.N = some m) :
    c.RMSE = .ok (Real.sqrt ((s : ℝ) / (n : ℝ))) ∧
    ci.RMSE = .ok (Real.sqrt ((t : ℝ) / (m : ℝ))) := by
  constructor
  · simp [Calibration.RMSE, hs, hn]
  · simp [InhomogenousCalibration.RMSE, ht, hm]

/-- Witness for C2: the perfectly fitting homogeneous instance has objective
value 0 and the concrete inhomogeneous instance has objective value 42572. -/
theorem C2_rmse_roundtrip_witness :
    cCal.RMSE = .ok (Real.sqrt (((0 : ℚ) : ℝ) / ((3 : ℕ) : ℝ))) ∧
    ciCal.RMSE = .ok (Real.sqrt (((42572 : ℚ) : ℝ) / ((3 : ℕ) : ℝ))) :=
  C2_rmse_roundtrip cCal ciCal 0 42572 3 3
    (by
      simp [cCal, Calibration.ObjectiveFunction, objSum, cdsFit, mdEx,
        ICM.MarketData.Data]
      norm_num)
    rfl
    (by
      simp [ciCal, InhomogenousCalibration.ObjectiveFunction, objSum, ihpEx, mdEx,
        ICM.MarketData.Data]
      norm_num)
    rfl

/-- C4: an inhomogeneous calibration bound to market data with N tenors gets an
initial guess of exactly N components, each the same small positive value 0.01,
and (for any optimizer respecting the dimensionality contract of spec §3/§6)
the stored calibrated vector has exactly N components. -/
theorem C4_ihp_guess_and_dimension (dc : DiscountCurveT) (md : ICM.MarketData)
    (ihp : IHPClass) (opt : Optimiser)
    (hopt : ∀ f g, ((opt f g).1).length = g.length) :
    (InhomogenousCalibration.init dc (some md) ihp).Guess
        = some (List.replicate md.Tenors.length (1 / 100 : ℚ)) ∧
    (InhomogenousCalibration.init dc (some md) ihp).N = some md.Tenors.length ∧
    (∀ x ∈ List.replicate md.Tenors.length (1 / 100 : ℚ), x = 1 / 100) ∧
    (0 : ℚ) < 1 / 100 ∧
    ∃ ci out,
      (InhomogenousCalibration.init dc (some md) ihp).Calibrate opt = .ok (ci, out) ∧
      ci.calibrated_gamma = some out ∧ out.length = md.Tenors.length := by
  refine ⟨rfl, rfl, fun x hx => List.eq_of_mem_replicate hx, by norm_num, ?_⟩
  refine ⟨_, _, rfl, rfl, ?_⟩
  rw [hopt]
  simp

/-- Witness for C4 on the concrete three-tenor data set with an optimizer that
returns its guess. -/
theorem C4_ihp_guess_and_dimension_witness :
    (InhomogenousCalibration.init dcEx (some mdEx) ihpEx).Guess
        = some (List.replicate mdEx.Tenors.length (1 / 100 : ℚ)) ∧
    (InhomogenousCalibration.init dcEx (some mdEx) ihpEx).N = some mdEx.Tenors.length ∧
    (∀ x ∈ List.replicate mdEx.Tenors.length (1 / 100 : ℚ), x = 1 / 100) ∧
    (0 : ℚ) < 1 / 100 ∧
    ∃ ci out,
      (InhomogenousCalibration.init dcEx (some mdEx) ihpEx).Calibrate optTrue
        = .ok (ci, out) ∧
      ci.calibrated_gamma = some out ∧ out.length = mdEx.Tenors.length :=
  C4_ihp_guess_and_dimension dcEx mdEx ihpEx optTrue (fun _ _ => rfl)

/-- C6 counterexample: on a freshly constructed instance (no `Calibrate` call,
`calibrated_gamma` is `None`), parameter presentation does fail, but with the
`TypeError` of iterating `None` - not with a dedicated state error. -/
theorem C6_counterexample :
    cEx.calibrated_gamma = none ∧
    cEx.PrintParameters = .error (PyError.typeError ("NoneType object is not iterable")) ∧
    cEx.PrintParameters ≠ .error PyError.stateError := by
  refine ⟨rfl, rfl, ?_⟩
  intro h
  simp [Calibration.PrintParameters, cEx, Calibration.init] at h

/-- C6 (amended): before any `Calibrate` call, `RMSE` and the tabular report
fail with the state error (the pricing model cannot be evaluated on the absent
vector) and parameter presentation fails with a `TypeError`; after a successful
`Calibrate`, all three succeed on the stored vector (and, the embedded queries
being pure functions of the unchanged instance, repeated invocations return the
same results without re-invoking the optimizer). -/
theorem C6_state_ordering_amended (dc : DiscountCurveT) (md : ICM.MarketData)
    (cds : CDSClass) (proc : String) (guess : ParamVec) (opt : Optimiser)
    (hne : md.Data ≠ []) :
    (Calibration.init dc (some md) cds proc (some guess)).RMSE
        = .error PyError.stateError ∧
    (Calibration.init dc (some md) cds proc (some guess)).CalibrationResults
        = .error PyError.stateError ∧
    (Calibration.init dc (some md) cds proc (some guess)).PrintParameters
        = .error (PyError.typeError ("NoneType object is not iterable")) ∧
    ∀ c' out,
      (Calibration.init dc (some md) cds proc (some guess)).Calibrate opt
          = .ok (c', out) →
      c'.calibrated_gamma = some out ∧
      c'.RMSE = .ok (Real.sqrt ((objSum (cds dc) md.Data out : ℝ)
        / (md.Tenors.length : ℝ))) ∧
      (∃ rows r, c'.CalibrationResults = .ok (rows, r, none)) ∧
      (∃ str, c'.PrintParameters = .ok str) := by
  have hni := isEmpty_false_of_ne hne
  refine ⟨?_, ?_, rfl, ?_⟩
  · simp [Calibration.RMSE, Calibration.init, Calibration.ObjectiveFunction,
      absentGammaResult, hni]
  · simp [Calibration.CalibrationResults, Calibration.init, hni]
  · intro c' out h
    simp only [Calibration.Calibrate, Calibration.init, Except.ok.injEq,
      Prod.mk.injEq] at h
    obtain ⟨h1, h2⟩ := h
    subst h1
    subst h2
    refine ⟨rfl, ?_, ?_, ⟨_, rfl⟩⟩
    · simp [Calibration.RMSE, Calibration.ObjectiveFunction,
        ICM.MarketData.Tenors]
    · exact ⟨_, _, base_results_eq _ md _ rfl rfl hne⟩

/-- Witness for C6 (amended) on the concrete three-tenor instance. -/
theorem C6_state_ordering_amended_witness :
    (Calibration.init dcEx (some mdEx) cdsEx ("HP") (some [1 / 100])).RMSE
        = .error PyError.stateError ∧
    (Calibration.init dcEx (some mdEx) cdsEx ("HP") (some [1 / 100])).CalibrationResults
        = .error PyError.stateError ∧
    (Calibration.init dcEx (some mdEx) cdsEx ("HP") (some [1 / 100])).PrintParameters
        = .error (PyError.typeError ("NoneType object is not iterable")) ∧
    ∀ c' out,
      (Calibration.init dcEx (some mdEx) cdsEx ("HP") (some [1 / 100])).Calibrate optTrue
          = .ok (c', out) →
      c'.calibrated_gamma = some out ∧
      c'.RMSE = .ok (Real.sqrt ((objSum (cdsEx dcEx) mdEx.Data out : ℝ)
        / (mdEx.Tenors.length : ℝ))) ∧
      (∃ rows r, c'.CalibrationResults = .ok (rows, r, none)) ∧
      (∃ str, c'.PrintParameters = .ok str) :=
  C6_state_ordering_amended dcEx mdEx cdsEx ("HP") [1 / 100] optTrue
    (by simp [mdEx, ICM.MarketData.Data])

/-- C7 counterexample: two optimizer runs that return the same best-effort
vector but differ in their convergence status produce identical `Calibrate`
results - the caller is not informed of non-convergence. -/
theorem C7_counterexample :
    (optTrue (fun _ => 0) [1 / 100]).2 = true ∧
    (optFalse (fun _ => 0) [1 / 100]).2 = false ∧
    cEx.Calibrate optTrue = cEx.Calibrate optFalse :=
  ⟨rfl, rfl, rfl⟩

/-- C7 (amended): `Calibrate` stores and returns the optimizer's best-effort
vector even on non-convergence, but it discards the convergence status and
suppresses the optimizer's warning output (`disp=0`), so its result is
identical for a converged and a non-converged run: the caller cannot
distinguish them. -/
theorem C7_calibrate_discards_convergence (c : Calibration) (md : ICM.MarketData)
    (guess : ParamVec) (opt opt' : Optimiser)
    (hmd : c.MarketData = some md) (hg : c.Guess = some guess)
    (hsame : ∀ f g, (opt' f g).1 = (opt f g).1) :
    (∃ c', c.Calibrate opt = .ok (c',
        (opt (fun g => objSum (c.CDS c.DiscountCurve) md.Data g) guess).1) ∧
      c'.calibrated_gamma = some
        ((opt (fun g => objSum (c.CDS c.DiscountCurve) md.Data g) guess).1)) ∧
    c.Calibrate opt' = c.Calibrate opt := by
  constructor
  · have hcal : c.Calibrate opt = .ok
        ({ c with calibrated_gamma := some ((opt (fun g => objSum (c.CDS c.DiscountCurve) md.Data g) guess).1) },
         (opt (fun g => objSum (c.CDS c.DiscountCurve) md.Data g) guess).1) := by
      simp [Calibration.Calibrate, hmd, hg]
    exact ⟨_, hcal, rfl⟩
  · simp [Calibration.Calibrate, hmd, hg, hsame]

/-- Witness for C7 (amended): the converged and the non-converged optimizer on
the concrete instance. -/
theorem C7_calibrate_discards_convergence_witness :
    (∃ c', cEx.Calibrate optTrue = .ok (c',
        (optTrue (fun g => objSum (cEx.CDS cEx.DiscountCurve) mdEx.Data g) [1 / 100]).1) ∧
      c'.calibrated_gamma = some
        ((optTrue (fun g => objSum (cEx.CDS cEx.DiscountCurve) mdEx.Data g) [1 / 100]).1)) ∧
    cEx.Calibrate optFalse = cEx.Calibrate optTrue :=
  C7_calibrate_discards_convergence cEx mdEx [1 / 100] optTrue optFalse rfl rfl
    (fun _ _ => rfl)

/-- C8: the tabular report iterates the market data in sorted tenor order
(sorted rows, a permutation of the data) and recomputes, per tenor, the
survival probability from the stored calibrated vector scaled by 100 to a
percentage; the inhomogeneous report additionally shows, per tenor, the
calibrated vector's entry at that tenor's index in the sorted tenor grid. -/
theorem C8_report_rows (c : Calibration) (md : ICM.MarketData) (g : ParamVec)
    (hmd : c.MarketData = some md) (hg : c.calibrated_gamma = some g)
    (hne : md.Data ≠ [])
    (ci : InhomogenousCalibration) (mdi : ICM.MarketData) (gi : ParamVec)
    (hmdi : ci.MarketData = some mdi) (hgi : ci.calibrated_gamma = some gi)
    (hnei : mdi.Data ≠ []) (hlen : gi.length = mdi.Tenors.length) :
    (∃ r, c.CalibrationResults = .ok ((sortData md.Data).map (fun p =>
        { tenor := p.1, market_spread := p.2,
          model_spread := (c.CDS c.DiscountCurve p.1).ParSpread g,
          survival_probability :=
            (c.CDS c.DiscountCurve p.1).SurvivalProbability g p.1 * 100 }), r, none)) ∧
    ((sortData md.Data).map Prod.fst).Sorted (· ≤ ·) ∧
    (sortData md.Data).Perm md.Data ∧
    (∃ r, ci.CalibrationResults = .ok ((sortData mdi.Data).map (fun p =>
        { tenor := p.1, market_spread := p.2,
          model_spread :=
            (ci.IHPCDS (sortQ mdi.Tenors) ci.DiscountCurve p.1).ParSpread gi,
          gamma := gi.getD (listIndex p.1 (sortQ mdi.Tenors)) 0,
          survival_probability :=
            (ci.IHPCDS (sortQ mdi.Tenors) ci.DiscountCurve p.1).SurvivalProbability
              gi p.1 * 100 }), r, some r)) ∧
    ((sortData mdi.Data).map Prod.fst).Sorted (· ≤ ·) ∧
    (sortData mdi.Data).Perm mdi.Data := by
  exact ⟨⟨_, base_results_eq c md g hmd hg hne⟩, sortData_sorted_fst _, sortData_perm _,
    ⟨_, ihp_results_eq ci mdi gi hmdi hgi hnei hlen⟩, sortData_sorted_fst _,
    sortData_perm _⟩

/-- Witness for C8 on the concrete calibrated instances. -/
theorem C8_report_rows_witness :
    (∃ r, cCal.CalibrationResults = .ok ((sortData mdEx.Data).map (fun p =>
        { tenor := p.1, market_spread := p.2,
          model_spread := (cCal.CDS cCal.DiscountCurve p.1).ParSpread [1 / 50],
          survival_probability :=
            (cCal.CDS cCal.DiscountCurve p.1).SurvivalProbability [1 / 50] p.1 * 100 }),
        r, none)) ∧
    ((sortData mdEx.Data).map Prod.fst).Sorted (· ≤ ·) ∧
    (sortData mdEx.Data).Perm mdEx.Data ∧
    (∃ r, ciCal.CalibrationResults = .ok ((sortData mdEx.Data).map (fun p =>
        { tenor := p.1, market_spread := p.2,
          model_spread :=
            (ciCal.IHPCDS (sortQ mdEx.Tenors) ciCal.DiscountCurve p.1).ParSpread [2, 3, 4],
          gamma := List.getD [2, 3, 4] (listIndex p.1 (sortQ mdEx.Tenors)) 0,
          survival_probability :=
            (ciCal.IHPCDS (sortQ mdEx.Tenors) ciCal.DiscountCurve p.1).SurvivalProbability
              [2, 3, 4] p.1 * 100 }), r, some r)) ∧
    ((sortData mdEx.Data).map Prod.fst).Sorted (· ≤ ·) ∧
    (sortData mdEx.Data).Perm mdEx.Data :=
  C8_report_rows cCal mdEx [1 / 50] rfl rfl (by simp [mdEx, ICM.MarketData.Data])
    ciCal mdEx [2, 3, 4] rfl rfl (by simp [mdEx, ICM.MarketData.Data]) rfl

/-- C9 counterexample: on an instance built with `MarketData = None` that holds
a calibrated vector, `RMSE()` does fail with an `AttributeError`, but the
failing attribute access is `Data` on the `None` market data, reached before
the undefined `N` is ever read. -/
theorem C9_counterexample :
    cNoMD.MarketData = none ∧
    cNoMD.calibrated_gamma = some [1] ∧
    cNoMD.RMSE = .error (PyError.attributeError ("Data")) ∧
    PyError.attributeError ("Data") ≠ PyError.attributeError ("N") ∧
    cNoMD.RMSE ≠ .error PyError.stateError := by
  have h0 : cNoMD.RMSE = .error (PyError.attributeError ("Data")) := rfl
  refine ⟨rfl, rfl, h0, by simp, ?_⟩
  rw [h0]
  simp

/-- C9 (amended): constructing a calibration with no market data never sets the
tenor count `N`; a subsequent `RMSE()` call on such an instance - even with a
calibrated vector present - fails with an `AttributeError` (the `Data` access
on the `None` market data, with `N` also left unset) rather than a dedicated
state error. -/
theorem C9_no_marketdata_attribute_error (dc : DiscountCurveT) (cds : CDSClass)
    (proc : String) (guess : Option ParamVec) (ihp : IHPClass)
    (c : Calibration) (hmd : c.MarketData = none)
    (ci : InhomogenousCalibration) (hmdi : ci.MarketData = none) :
    (Calibration.init dc none cds proc guess).N = none ∧
    (InhomogenousCalibration.init dc none ihp).N = none ∧
    c.RMSE = .error (PyError.attributeError ("Data")) ∧
    ci.RMSE = .error (PyError.attributeError ("Data")) ∧
    PyError.attributeError ("Data") ≠ PyError.stateError := by
  refine ⟨rfl, rfl, ?_, ?_, by simp⟩
  · simp [Calibration.RMSE, Calibration.ObjectiveFunction, hmd, except_error_bind]
  · simp [InhomogenousCalibration.RMSE, InhomogenousCalibration.ObjectiveFunction, hmdi,
      except_error_bind]

/-- Witness for C9 (amended) on the concrete no-market-data instances. -/
theorem C9_no_marketdata_attribute_error_witness :
    (Calibration.init dcEx none cdsEx ("HP") (some [1 / 100])).N = none ∧
    (InhomogenousCalibration.init dcEx none ihpEx).N = none ∧
    cNoMD.RMSE = .error (PyError.attributeError ("Data")) ∧
    ciNoMD.RMSE = .error (PyError.attributeError ("Data")) ∧
    PyError.attributeError ("Data") ≠ PyError.stateError :=
  C9_no_marketdata_attribute_error dcEx cdsEx ("HP") (some [1 / 100]) ihpEx
    cNoMD rfl ciNoMD rfl

/-- C10: on calibrated instances the two report operations differ in return
value: the base report always returns `None`, while the inhomogeneous report
returns the recomputed RMSE value. -/
theorem C10_report_return_values (c : Calibration) (md : ICM.MarketData) (g : ParamVec)
    (hmd : c.MarketData = some md) (hg : c.calibrated_gamma = some g)
    (hne : md.Data ≠ [])
    (ci : InhomogenousCalibration) (mdi : ICM.MarketData) (gi : ParamVec)
    (hmdi : ci.MarketData = some mdi) (hgi : ci.calibrated_gamma = some gi)
    (hnei : mdi.Data ≠ []) (hlen : gi.length = mdi.Tenors.length) :
    (∃ rows r, c.CalibrationResults = .ok (rows, r, none)) ∧
    (∃ rowsI, ci.CalibrationResults = .ok (rowsI,
      Real.sqrt ((objSum (fun t => ci.IHPCDS (sortQ mdi.Tenors) ci.DiscountCurve t)
        (sortData mdi.Data) gi : ℝ) / (mdi.Tenors.length : ℝ)),
      some (Real.sqrt ((objSum (fun t => ci.IHPCDS (sortQ mdi.Tenors) ci.DiscountCurve t)
        (sortData mdi.Data) gi : ℝ) / (mdi.Tenors.length : ℝ))))) ∧
    ∀ r : ℝ, (some r : Option ℝ) ≠ none :=
  ⟨⟨_, _, base_results_eq c md g hmd hg hne⟩,
    ⟨_, ihp_results_eq ci mdi gi hmdi hgi hnei hlen⟩,
    fun r => by simp⟩

/-- Witness for C10 on the concrete calibrated instances. -/
theorem C10_report_return_values_witness :
    (∃ rows r, cCal.CalibrationResults = .ok (rows, r, none)) ∧
    (∃ rowsI, ciCal.CalibrationResults = .ok (rowsI,
      Real.sqrt ((objSum (fun t => ciCal.IHPCDS (sortQ mdEx.Tenors) ciCal.DiscountCurve t)
        (sortData mdEx.Data) [2, 3, 4] : ℝ) / (mdEx.Tenors.length : ℝ)),
      some (Real.sqrt ((objSum (fun t => ciCal.IHPCDS (sortQ mdEx.Tenors) ciCal.DiscountCurve t)
        (sortData mdEx.Data) [2, 3, 4] : ℝ) / (mdEx.Tenors.length : ℝ))))) ∧
    ∀ r : ℝ, (some r : Option ℝ) ≠ none :=
  C10_report_return_values cCal mdEx [1 / 50] rfl rfl
    (by simp [mdEx, ICM.MarketData.Data])
    ciCal mdEx [2, 3, 4] rfl rfl (by simp [mdEx, ICM.MarketData.Data]) rfl

end ICM
